import Mathlib

/-!
Verification development for the gis-web-app ingestion/normalization pipeline
(`src/gis-web-app/src/App.jsx`).  The JavaScript source is shallowly embedded:
JS numbers become an explicit finite/NaN/infinity sum over `Rat`, JS property
bags become association lists, thrown exceptions become `Except`, and the
external `proj4` projection library becomes an explicit function parameter
(so theorems quantify over every possible projection behaviour, and concrete
counterexamples instantiate it).  Console logging and `alert` calls carry no
data flow and are omitted.
-/

/-- A JavaScript number: a finite value (modelled exactly as a rational),
NaN, or a signed infinity. -/
inductive JsNum where
  | fin (q : Rat)
  | nan
  | posInf
  | negInf
deriving DecidableEq, Repr

/-- True exactly for NaN (the discriminator behind JS `isNaN` once a value
has been coerced to number). -/
def JsNum.isNaNum : JsNum → Bool
  | .nan => true
  | _ => false

/-- True for finite numbers only (JS `Number.isFinite` on an actual number). -/
def JsNum.isFiniteNum : JsNum → Bool
  | .fin _ => true
  | _ => false

/-- JS `Math.abs` restricted to numbers. -/
def JsNum.jsAbs : JsNum → JsNum
  | .fin q => .fin |q|
  | .nan => .nan
  | .posInf => .posInf
  | .negInf => .posInf

/-- JS `x > r` for a number `x` against a rational literal: NaN compares
false, infinities compare as expected. -/
def JsNum.gtR : JsNum → Rat → Bool
  | .fin q, r => r < q
  | .nan, _ => false
  | .posInf, _ => true
  | .negInf, _ => false

/-- JS `x < r` for a number `x` against a rational literal. -/
def JsNum.ltR : JsNum → Rat → Bool
  | .fin q, r => q < r
  | .nan, _ => false
  | .posInf, _ => false
  | .negInf, _ => true

/-- JS `x >= r` for a number `x` against a rational literal. -/
def JsNum.geR : JsNum → Rat → Bool
  | .fin q, r => r ≤ q
  | .nan, _ => false
  | .posInf, _ => true
  | .negInf, _ => false

/-- JS `x <= r` for a number `x` against a rational literal. -/
def JsNum.leR : JsNum → Rat → Bool
  | .fin q, r => q ≤ r
  | .nan, _ => false
  | .posInf, _ => false
  | .negInf, _ => true

/-- A primitive JS value as it appears in property bags and table cells:
number, string, null/undefined, or boolean. -/
inductive PropVal where
  | num (v : JsNum)
  | str (s : String)
  | nullv
  | boolv (b : Bool)
deriving DecidableEq, Repr

/-- JS truthiness of a primitive value. -/
def PropVal.jsTruthy : PropVal → Bool
  | .num (.fin q) => q ≠ 0
  | .num .nan => false
  | .num .posInf => true
  | .num .negInf => true
  | .str s => s ≠ ""
  | .nullv => false
  | .boolv b => b

/-- Decimal digit test on character codes. -/
def isDigitChar (c : Char) : Bool :=
  48 ≤ c.toNat && c.toNat ≤ 57

/-- Numeric value of a decimal digit character. -/
def digitVal (c : Char) : Nat := c.toNat - 48

/-- Fold a digit run into a natural number. -/
def digitsToNat (l : List Char) : Nat :=
  l.foldl (fun acc c => 10 * acc + digitVal c) 0

/-- Split a character list into its leading run of decimal digits and the
rest. -/
def spanDigits : List Char → (List Char × List Char)
  | [] => ([], [])
  | c :: cs =>
    if isDigitChar c then
      let (run, rest) := spanDigits cs
      (c :: run, rest)
    else ([], c :: cs)

/-- Rational value of an integer-digit run plus a fraction-digit run,
as read by JS decimal parsing.  The fraction-free case is split out so that
integer-valued literals reduce by pure numeral casting. -/
def decimalValue (intPart fracPart : List Char) : Rat :=
  if fracPart.isEmpty then (digitsToNat intPart : Rat)
  else (digitsToNat intPart : Rat) + (digitsToNat fracPart : Rat) / (10 ^ fracPart.length : Nat)

/-- Leading-sign split: returns (signIsNegative, rest); `+` and `-` both
consumed. -/
def splitSign : List Char → (Bool × List Char)
  | '-' :: cs => (true, cs)
  | '+' :: cs => (false, cs)
  | cs => (false, cs)

/-- The character list "Infinity". -/
def infinityChars : List Char := "Infinity".data

/-- JS `parseFloat` on the character list of a string, modelling the subset
of the grammar exercised by this codebase: leading whitespace, an optional
sign, either the literal `Infinity` or a decimal number `digits[.digits]` /
`.digits` prefix (exponents and hex are outside the modelled subset).  A
string with no parsable numeric prefix gives NaN. -/
def parseFloatChars (l : List Char) : JsNum :=
  let l1 := l.dropWhile Char.isWhitespace
  let (neg, l2) := splitSign l1
  if infinityChars.isPrefixOf l2 then
    if neg then .negInf else .posInf
  else
    let (intPart, r1) := spanDigits l2
    let (fracPart, _) :=
      match r1 with
      | '.' :: r2 => spanDigits r2
      | _ => ([], r1)
    if intPart.isEmpty && fracPart.isEmpty then .nan
    else
      let v := decimalValue intPart fracPart
      .fin (if neg then -v else v)

/-- JS `Number(string)` coercion on the character list of a string, for the
same modelled numeric subset as `parseFloatChars`, but requiring the whole
(trimmed) string to be numeric: a fully-blank string coerces to 0, trailing
garbage coerces to NaN. -/
def strToNumberChars (l : List Char) : JsNum :=
  let l1 := (l.dropWhile Char.isWhitespace).reverse.dropWhile Char.isWhitespace |>.reverse
  if l1.isEmpty then .fin 0
  else
    let (neg, l2) := splitSign l1
    if l2 = infinityChars then
      if neg then .negInf else .posInf
    else
      let (intPart, r1) := spanDigits l2
      let (fracPart, r2) :=
        match r1 with
        | '.' :: r3 => spanDigits r3
        | _ => ([], r1)
      if intPart.isEmpty && fracPart.isEmpty then .nan
      else if !r2.isEmpty then .nan
      else
        let v := decimalValue intPart fracPart
        .fin (if neg then -v else v)

/-- JS `Number(v)` coercion of a primitive value. -/
def PropVal.toNumber : PropVal → JsNum
  | .num v => v
  | .str s => strToNumberChars s.data
  | .nullv => .fin 0
  | .boolv b => if b then .fin 1 else .fin 0

/-- JS global `isNaN(v)`: coerce to number, test for NaN. -/
def PropVal.jsIsNaN (v : PropVal) : Bool :=
  (v.toNumber).isNaNum

/-- JS `parseFloat(v)` on a primitive value: numbers round-trip through
their canonical string form (identity for the modelled values), strings are
prefix-parsed, null/booleans stringify to non-numeric text hence NaN. -/
def PropVal.jsParseFloat : PropVal → JsNum
  | .num v => v
  | .str s => parseFloatChars s.data
  | .nullv => .nan
  | .boolv _ => .nan

/-- ASCII uppercase of a string (JS `toUpperCase` on the identifiers this
codebase compares; all relevant column names are ASCII). -/
def upperStr (s : String) : String :=
  String.mk (s.data.map Char.toUpper)

/-!
Geometry and feature-collection data model, mirroring the object shapes that
`App.jsx` reads: a geometry is an object with `type` and `coordinates`
fields, a feature couples an optional geometry with a property bag, and a
feature collection couples a feature list with an optional CRS block.
`Option` models JS field absence / falsiness where the source tests it.
-/

/-- A coordinate value as traversed by `transformCoordinates`: a number, an
array of coordinate values, or any other JS value (string, object, null),
which the traversal leaves untouched. -/
inductive CoordVal where
  | num (v : JsNum)
  | arr (elems : List CoordVal)
  | other

mutual

/-- Decidable equality for coordinate trees. -/
def CoordVal.decEq : (a b : CoordVal) → Decidable (a = b)
  | .num x, .num y =>
    match instDecidableEqJsNum x y with
    | isTrue h => isTrue (by rw [h])
    | isFalse h => isFalse (fun hh => h (CoordVal.num.inj hh))
  | .arr xs, .arr ys =>
    match CoordVal.decEqList xs ys with
    | isTrue h => isTrue (by rw [h])
    | isFalse h => isFalse (fun hh => h (CoordVal.arr.inj hh))
  | .other, .other => isTrue rfl
  | .num _, .arr _ => isFalse nofun
  | .num _, .other => isFalse nofun
  | .arr _, .num _ => isFalse nofun
  | .arr _, .other => isFalse nofun
  | .other, .num _ => isFalse nofun
  | .other, .arr _ => isFalse nofun

/-- Decidable equality for lists of coordinate trees. -/
def CoordVal.decEqList : (a b : List CoordVal) → Decidable (a = b)
  | [], [] => isTrue rfl
  | [], _ :: _ => isFalse nofun
  | _ :: _, [] => isFalse nofun
  | x :: xs, y :: ys =>
    match CoordVal.decEq x y, CoordVal.decEqList xs ys with
    | isTrue h1, isTrue h2 => isTrue (by rw [h1, h2])
    | isFalse h1, _ => isFalse (fun hh => h1 (List.cons.inj hh).1)
    | _, isFalse h2 => isFalse (fun hh => h2 (List.cons.inj hh).2)

end

instance : DecidableEq CoordVal := CoordVal.decEq

/-- A geometry object: `type` and `coordinates` fields as the source reads
them (`none` = absent or falsy). -/
structure Geometry where
  type : Option String
  coordinates : Option CoordVal
deriving DecidableEq

/-- A property bag: insertion-ordered string-keyed JS object. -/
abbrev Props := List (String × PropVal)

/-- Look up a property by exact key (first match; JS object keys are
unique, so first match is the only match). -/
def getProp (p : Props) (k : String) : Option PropVal :=
  (p.find? (fun e => e.1 = k)).map (fun e => e.2)

/-- JS property assignment `obj[k] = v`: replace the value in place if the
key exists, append otherwise. -/
def setProp (p : Props) (k : String) (v : PropVal) : Props :=
  if p.any (fun e => e.1 = k) then
    p.map (fun e => if e.1 = k then (k, v) else e)
  else p ++ [(k, v)]

/-- A feature as handled downstream of normalization: the source guards
`feature.geometry` truthiness before use, so the geometry is optional. -/
structure Feature where
  geometry : Option Geometry
  properties : Props
deriving DecidableEq

/-- The `crs.properties` object of a GeoJSON CRS block. -/
structure CRSProps where
  name : Option String
deriving DecidableEq

/-- A GeoJSON CRS block as read by the source (`crs.properties.name`). -/
structure CRSBlock where
  properties : Option CRSProps
deriving DecidableEq

/-- A feature collection: `type` is always the literal
`'FeatureCollection'` in every object the source builds, so only the
`features` and `crs` fields are modelled. -/
structure FC where
  features : List Feature
  crs : Option CRSBlock
deriving DecidableEq

/-- Decidable equality for `Except` results over decidable components. -/
instance {e a : Type} [DecidableEq e] [DecidableEq a] : DecidableEq (Except e a) := fun x y =>
  match x, y with
  | .ok u, .ok v =>
    match decEq u v with
    | isTrue h => isTrue (by rw [h])
    | isFalse h => isFalse (fun hh => h (Except.ok.inj hh))
  | .error u, .error v =>
    match decEq u v with
    | isTrue h => isTrue (by rw [h])
    | isFalse h => isFalse (fun hh => h (Except.error.inj hh))
  | .ok _, .error _ => isFalse nofun
  | .error _, .ok _ => isFalse nofun

/-- The external `proj4(sourceCRS, 'EPSG:4326', [x, y])` call: given the
source-CRS name and the coordinate pair, either return the projected pair
or throw (`Except.error`).  Quantifying theorems over this parameter covers
every behaviour of the projection library. -/
abbrev ProjFun := String → JsNum → JsNum → Except Unit (JsNum × JsNum)

mutual

/-- Embeds `transformCoordinates` (App.jsx lines 200-216 and its verbatim copy at
lines 769-785): if the first element of an array is itself an array, map
the traversal over all elements; if the first two elements are numbers,
project the pair via `proj4`, keep any trailing dimensions, and on a thrown
projection error return the original array unchanged; leave every other
value (a non-array, an empty array, an array whose first element is a
number not followed by a number, or one starting with a non-number
non-array) as is. -/
def transformCoords (proj : ProjFun) (src : String) : CoordVal → CoordVal
  | .num v => .num v
  | .other => .other
  | .arr (.arr f :: rest) =>
    .arr (transformCoords proj src (.arr f) :: transformCoordsList proj src rest)
  | .arr (.num x :: .num y :: rest) =>
    match proj src x y with
    | .ok (lon, lat) => .arr (.num lon :: .num lat :: rest)
    | .error _ => .arr (.num x :: .num y :: rest)
  | .arr l => .arr l

/-- Elementwise traversal used by `transformCoords` (the `coords.map`). -/
def transformCoordsList (proj : ProjFun) (src : String) : List CoordVal → List CoordVal
  | [] => []
  | c :: cs => transformCoords proj src c :: transformCoordsList proj src cs

end

/-- Per-feature coordinate transformation (the body mapped over features at
App.jsx lines 218-226 and 790-807): features lacking a geometry or lacking
coordinates pass through unchanged. -/
def transformFeature (proj : ProjFun) (src : String) (f : Feature) : Feature :=
  match f.geometry with
  | none => f
  | some g =>
    match g.coordinates with
    | none => f
    | some c =>
      let g2 : Geometry := { g with coordinates := some (transformCoords proj src c) }
      { f with geometry := some g2 }

/-- Embeds `transformGeoJSONCoordinates` (App.jsx lines 752-811): identity when no
source CRS is given (JS falsy, which includes the empty string) or when it
already equals `'EPSG:4326'`; otherwise transform every feature.  The
`proj4.defs` registration in the source only primes the projection library
and is absorbed into the abstract `proj` parameter. -/
def transformGeoJSONCoordinates (proj : ProjFun) (geojson : FC) (sourceCRS : Option String) : FC :=
  match sourceCRS with
  | none => geojson
  | some s =>
    if s = "" || s = "EPSG:4326" then geojson
    else { geojson with features := geojson.features.map (transformFeature proj s) }

/-!
String scanners embedding the regular expressions and `includes` calls that
the CRS resolver (`extractEPSGFromPRJ`, App.jsx lines 671-749) and the
GeoJSON CRS-block reader (lines 159-163) perform.  Each JS regex used here
is of the simple form literal / case-folded literal / `[:\s]`-class run /
digit run, so greedy left-to-right scanning without backtracking is exact.
-/

/-- Case-insensitive prefix test (ASCII case folding, as used on the ASCII
tokens these patterns contain). -/
def startsWithCI : List Char → List Char → Bool
  | [], _ => true
  | _ :: _, [] => false
  | p :: ps, t :: ts => (t.toLower == p.toLower) && startsWithCI ps ts

/-- JS `String.prototype.includes` (case-sensitive substring test). -/
def containsSub (hay sub : List Char) : Bool :=
  match hay with
  | [] => sub.isEmpty
  | _ :: t => sub.isPrefixOf hay || containsSub t sub

/-- JS `s.includes(sub)` on Lean strings. -/
def jsIncludes (s sub : String) : Bool :=
  containsSub s.data sub.data

/-- Case-insensitive substring test (`/pat/i.test(s)` for a literal). -/
def containsCI (hay sub : List Char) : Bool :=
  match hay with
  | [] => sub.isEmpty
  | _ :: t => startsWithCI sub hay || containsCI t sub

/-- Separator class `[:\s]` of the EPSG pattern. -/
def isColonOrSpace (c : Char) : Bool :=
  c = ':' || c.isWhitespace

/-- Separator class `[_\s]` of the UTM-zone patterns. -/
def isUnderscoreOrSpace (c : Char) : Bool :=
  c = '_' || c.isWhitespace

/-- Digit capture of `/EPSG[:\s]*(\d+)/i` when anchored right after a
matched `EPSG` token. -/
def epsgDigitsAfter (rest : List Char) : Option (List Char) :=
  let r1 := rest.dropWhile isColonOrSpace
  let (ds, _) := spanDigits r1
  if ds.isEmpty then none else some ds

/-- Scanner for `/EPSG[:\s]*(\d+)/i`: first position where the full pattern
matches, returning the captured digit run. -/
def findEPSGDigits : List Char → Option (List Char)
  | [] => none
  | c :: cs =>
    if startsWithCI "EPSG".data (c :: cs) then
      match epsgDigitsAfter ((c :: cs).drop 4) with
      | some ds => some ds
      | none => findEPSGDigits cs
    else findEPSGDigits cs

/-- Digit capture of `/AUTHORITY\["EPSG","(\d+)"\]/i` when anchored at a
position: the literal head, a digit run, then the literal `"]` tail. -/
def authorityDigitsAt (rest : List Char) : Option (List Char) :=
  let pat := "AUTHORITY[\"EPSG\",\"".data
  if startsWithCI pat rest then
    let r := rest.drop pat.length
    let (ds, r2) := spanDigits r
    if ds.isEmpty then none
    else
      match r2 with
      | '"' :: ']' :: _ => some ds
      | _ => none
  else none

/-- Scanner for `/AUTHORITY\["EPSG","(\d+)"\]/i`. -/
def findAuthorityDigits : List Char → Option (List Char)
  | [] => none
  | c :: cs =>
    match authorityDigitsAt (c :: cs) with
    | some ds => some ds
    | none => findAuthorityDigits cs

/-- Digit capture of `/UTM[_\s]*Zone[_\s]*(\d+)/i` when anchored at a
position. -/
def utmZoneDigitsAt (rest : List Char) : Option (List Char) :=
  if startsWithCI "UTM".data rest then
    let r1 := (rest.drop 3).dropWhile isUnderscoreOrSpace
    if startsWithCI "Zone".data r1 then
      let r2 := (r1.drop 4).dropWhile isUnderscoreOrSpace
      let (ds, _) := spanDigits r2
      if ds.isEmpty then none else some ds
    else none
  else none

/-- Scanner for `/UTM[_\s]*Zone[_\s]*(\d+)/i`. -/
def findUTMZoneDigits : List Char → Option (List Char)
  | [] => none
  | c :: cs =>
    match utmZoneDigitsAt (c :: cs) with
    | some ds => some ds
    | none => findUTMZoneDigits cs

/-- Digit capture of `/zone[_\s]*(\d+)/i` when anchored at a position. -/
def zoneDigitsAt (rest : List Char) : Option (List Char) :=
  if startsWithCI "zone".data rest then
    let r1 := (rest.drop 4).dropWhile isUnderscoreOrSpace
    let (ds, _) := spanDigits r1
    if ds.isEmpty then none else some ds
  else none

/-- Scanner for `/zone[_\s]*(\d+)/i`. -/
def findZoneDigits : List Char → Option (List Char)
  | [] => none
  | c :: cs =>
    match zoneDigitsAt (c :: cs) with
    | some ds => some ds
    | none => findZoneDigits cs

/-- Anchored test for `/Zone[_\s]*32/i`. -/
def zone32At (rest : List Char) : Bool :=
  startsWithCI "Zone".data rest &&
    "32".data.isPrefixOf ((rest.drop 4).dropWhile isUnderscoreOrSpace)

/-- Scanner for `/Zone[_\s]*32/i.test`. -/
def hasZone32Regex : List Char → Bool
  | [] => false
  | c :: cs => zone32At (c :: cs) || hasZone32Regex cs

/-- Embeds `extractEPSGFromPRJ` (App.jsx lines 671-749): resolve a source SRS from
projection-definition (PRJ/WKT) text.  Order: an explicit `EPSG...nnn` or
`AUTHORITY["EPSG","nnn"]` token; the well-known `WGS_1984_UTM_Zone_32N`
name; a UTM-Zone-32 signature combined with WGS84 (EPSG:32632) or
Carthage/Clarke-1880 (EPSG:22391) datum fragments; finally any UTM zone
number combined with a WGS fragment computes `32600+zone` for a northern
definition and `32700+zone` otherwise, where northern means the text
contains none of `'South'`, `'S'`, `'south'`, `'s'`. -/
def extractEPSGFromPRJ (prjText : String) : Option String :=
  if prjText = "" then none
  else
    let t := prjText.data
    let explicitCode :=
      match findEPSGDigits t with
      | some ds => some ds
      | none => findAuthorityDigits t
    match explicitCode with
    | some ds => some ("EPSG:" ++ String.mk ds)
    | none =>
      if jsIncludes prjText "WGS_1984_UTM_Zone_32N" ||
         jsIncludes prjText "WGS 1984 UTM Zone 32N" then
        some "EPSG:32632"
      else
        let hasUTM := jsIncludes prjText "UTM" || jsIncludes prjText "utm"
        let hasZone32 :=
          jsIncludes prjText "Zone_32" || jsIncludes prjText "Zone 32" ||
          jsIncludes prjText "zone_32" || jsIncludes prjText "zone 32" ||
          jsIncludes prjText "ZONE_32" || jsIncludes prjText "ZONE 32" ||
          hasZone32Regex t
        let hasWGS :=
          jsIncludes prjText "WGS_1984" || jsIncludes prjText "WGS 1984" ||
          jsIncludes prjText "WGS84" || jsIncludes prjText "WGS 84" ||
          jsIncludes prjText "GCS_WGS_1984" || jsIncludes prjText "GCS_WGS" ||
          jsIncludes prjText "GCS_WGS84" || jsIncludes prjText "GCS WGS" ||
          jsIncludes prjText "D_WGS_1984" || jsIncludes prjText "Datum_WGS_1984" ||
          jsIncludes prjText "DATUM[\"D_WGS_1984\"" || jsIncludes prjText "DATUM[\"WGS_1984\"" ||
          jsIncludes prjText "PROJCS[\"WGS" || containsCI t "WGS".data
        let hasCarthage :=
          jsIncludes prjText "Carthage" || jsIncludes prjText "CARTHAGE" ||
          jsIncludes prjText "clrk80" || jsIncludes prjText "CLRK80" ||
          jsIncludes prjText "Clarke_1880" || jsIncludes prjText "Clarke 1880" ||
          jsIncludes prjText "CLARKE_1880"
        let zoneDatumResult :=
          if hasUTM && hasZone32 then
            if hasWGS then some "EPSG:32632"
            else if hasCarthage then some "EPSG:22391"
            else none
          else none
        match zoneDatumResult with
        | some r => some r
        | none =>
          let utmZoneMatch :=
            match findUTMZoneDigits t with
            | some ds => some ds
            | none => findZoneDigits t
          match utmZoneMatch with
          | some ds =>
            if jsIncludes prjText "WGS" || jsIncludes prjText "GCS_WGS" then
              let zone := digitsToNat ds
              let isNorth :=
                !(jsIncludes prjText "South") && !(jsIncludes prjText "S") &&
                !(jsIncludes prjText "south") && !(jsIncludes prjText "s")
              let code := if isNorth then 32600 + zone else 32700 + zone
              some ("EPSG:" ++ toString code)
            else none
          | none => none

/-!
The Structured-Geometry Normalizer `processGeoJSON` (App.jsx lines 58-314).
The parsed JSON input is modelled by the fields the function reads; thrown
errors become `Except.error` of a typed error mirroring each distinct
`throw new Error(...)` site.  The function's final `addLayer` call receives
the normalized collection, so the `Except.ok` payload is exactly the value
handed to the layer store.  The coordinate-range validation walk at lines
261-304 only emits console warnings and is omitted.
-/

/-- An entry of the input `features` array as inspected at lines 77-85:
either a falsy/invalid entry or an object with the three read fields. -/
inductive FeatureIn where
  | nullish
  | obj (type : Option String) (geometry : Option Geometry) (properties : Option Props)

/-- The parsed top-level JSON object, restricted to the fields
`processGeoJSON` reads.  Array-valued fields are `some` exactly when the
JS value is an array (the source tests `Array.isArray`). -/
structure GeoObj where
  type : Option String
  features : Option (List FeatureIn)
  geometry : Option Geometry
  properties : Option Props
  coordinates : Option CoordVal
  geometries : Option (List (Option Geometry))
  crs : Option CRSBlock

/-- The raw input: `null`/non-object values versus an object. -/
inductive GeoInput where
  | nonObject
  | obj (o : GeoObj)

/-- The typed failures of `processGeoJSON`, one per `throw` site. -/
inductive GeoErr where
  | notObject
  | featuresNotArray
  | invalidFeature
  | noValidFeatures
  | geometriesNotArray
  | noValidGeometries
  | unsupportedType (received : String)
deriving DecidableEq

/-- The name interpolated into the unsupported-type message:
`geojson.type || 'unknown'` (a missing or empty-string discriminant prints
as `'unknown'`). -/
def typeNameOrUnknown : Option String → String
  | some t => if t = "" then "unknown" else t
  | none => "unknown"

/-- Per-entry normalization inside the FeatureCollection branch (lines
77-91): drop entries that are falsy, not `'Feature'`-typed, or lacking a
truthy geometry with truthy coordinates; keep the rest with a defaulted
property bag. -/
def keepFeature : FeatureIn → Option Feature
  | .nullish => none
  | .obj t g p =>
    if t ≠ some "Feature" then none
    else
      match g with
      | none => none
      | some geom =>
        if geom.coordinates.isNone then none
        else some ⟨some geom, p.getD []⟩

/-- The six bare-geometry discriminants accepted at line 114. -/
def bareGeomTypes : List String :=
  ["Point", "LineString", "Polygon", "MultiPoint", "MultiLineString", "MultiPolygon"]

/-- The `type`-dispatch state machine of lines 61-147 producing the
normalized collection (before CRS handling), or a typed failure. -/
def normalizeGeoDoc : GeoInput → Except GeoErr FC
  | .nonObject => .error .notObject
  | .obj o =>
    if o.type = some "FeatureCollection" then
      match o.features with
      | none => .error .featuresNotArray
      | some fs =>
        let kept := fs.filterMap keepFeature
        if kept.isEmpty then .error .noValidFeatures
        else .ok ⟨kept, o.crs⟩
    else if o.type = some "Feature" then
      match o.geometry with
      | none => .error .invalidFeature
      | some g =>
        if g.coordinates.isNone then .error .invalidFeature
        else .ok ⟨[⟨some g, o.properties.getD []⟩], o.crs⟩
    else if (match o.type with
             | some t => bareGeomTypes.contains t
             | none => false) then
      .ok ⟨[⟨some ⟨o.type, o.coordinates⟩, []⟩], o.crs⟩
    else if o.type = some "GeometryCollection" then
      match o.geometries with
      | none => .error .geometriesNotArray
      | some gs =>
        let feats :=
          (gs.filterMap id).filter (fun g => g.coordinates.isSome)
            |>.map (fun g => Feature.mk (some g) [])
        if feats.isEmpty then .error .noValidGeometries
        else .ok ⟨feats, o.crs⟩
    else .error (.unsupportedType (typeNameOrUnknown o.type))

/-- CRS extraction from the normalized collection's CRS block (lines
150-165): requires a truthy `crs.properties.name` and an
`/EPSG[:\s]*(\d+)/i` match inside it. -/
def extractSourceCRSFromFC (crs : Option CRSBlock) : Option String :=
  match crs with
  | none => none
  | some b =>
    match b.properties with
    | none => none
    | some p =>
      match p.name with
      | none => none
      | some nm =>
        if nm = "" then none
        else
          match findEPSGDigits nm.data with
          | some ds => some ("EPSG:" ++ String.mk ds)
          | none => none

/-- The lon/lat property override applied to every feature in the
known-CRS branch (lines 185-196): Point geometries whose property bag
defines both `lon` and `lat` get their coordinates replaced by the parsed
property values. -/
def lonLatOverride (f : Feature) : Feature :=
  match f.geometry with
  | some g =>
    if g.type = some "Point" then
      match getProp f.properties "lon", getProp f.properties "lat" with
      | some lonv, some latv =>
        let g2 : Geometry :=
          { g with coordinates := some (.arr [.num lonv.jsParseFloat, .num latv.jsParseFloat]) }
        { f with geometry := some g2 }
      | _, _ => f
    else f
  | none => f

/-- The flag accumulated by that same pass (`usedProperties`). -/
def featureHasPointLonLat (f : Feature) : Bool :=
  match f.geometry with
  | some g =>
    g.type = some "Point" && (getProp f.properties "lon").isSome &&
      (getProp f.properties "lat").isSome
  | none => false

/-- The known-CRS transformation phase (lines 168-233), entered when the
resolved source CRS differs from `'EPSG:4326'`: run the lon/lat override
pass over all features; if no feature used it, transform every feature;
finally clear the CRS block. -/
def crsTransformPhase (proj : ProjFun) (src : String) (n : FC) : FC :=
  let feats1 := n.features.map lonLatOverride
  let used := n.features.any featureHasPointLonLat
  let feats2 := if used then feats1 else feats1.map (transformFeature proj src)
  ⟨feats2, none⟩

/-- The projected-coordinates sniff of lines 236-241 on the first feature:
first coordinate entry (descending one level if it is an array) is a number
of magnitude above 180. -/
def looksProjected (feats : List Feature) : Bool :=
  match feats with
  | [] => false
  | f :: _ =>
    match f.geometry with
    | none => false
    | some g =>
      match g.coordinates with
      | some (.arr l) =>
        let firstCoord : Option CoordVal :=
          match l with
          | [] => none
          | .arr l2 :: _ => l2.head?
          | c :: _ => some c
        match firstCoord with
        | some (.num v) => (JsNum.jsAbs v).gtR 180
        | _ => false
      | _ => false

/-- The per-feature recovery applied in the no-CRS branch (lines 245-255):
property order differs from `lonLatOverride` (properties tested before the
geometry type), but the replacement is the same.  For dispatcher output the
geometry is always present; the impossible missing-geometry case is an
identity here where the JS would throw. -/
def lonLatOverrideNoCRS (f : Feature) : Feature :=
  match getProp f.properties "lon", getProp f.properties "lat" with
  | some lonv, some latv =>
    match f.geometry with
    | some g =>
      if g.type = some "Point" then
        let g2 : Geometry :=
          { g with coordinates := some (.arr [.num lonv.jsParseFloat, .num latv.jsParseFloat]) }
        { f with geometry := some g2 }
      else f
    | none => f
  | _, _ => f

/-- The no-CRS branch (lines 234-259): if the first feature's coordinates
look projected, apply the lon/lat recovery to every feature; the CRS block
(necessarily unresolvable here) is left as is. -/
def noCRSPhase (n : FC) : FC :=
  if looksProjected n.features then
    { n with features := n.features.map lonLatOverrideNoCRS }
  else n

/-- The post-dispatch phase of `processGeoJSON` (lines 149-259): resolve
the CRS block; a non-WGS84 source SRS triggers the transformation phase,
an unresolvable one the heuristic recovery, and `'EPSG:4326'` leaves the
collection untouched. -/
def geoPostPhase (proj : ProjFun) (n : FC) : FC :=
  match extractSourceCRSFromFC n.crs with
  | some src =>
    if src ≠ "EPSG:4326" then crsTransformPhase proj src n
    else n
  | none => noCRSPhase n

/-- Embeds `processGeoJSON` (App.jsx lines 58-314): dispatch on the discriminant,
then resolve the CRS block and transform/override coordinates accordingly.
The `Except.ok` payload is the collection passed to `addLayer`. -/
def processGeoJSON (proj : ProjFun) (g : GeoInput) : Except GeoErr FC :=
  match normalizeGeoDoc g with
  | .error e => .error e
  | .ok n => .ok (geoPostPhase proj n)

/-!
The Point-Table Normalizer `processPointData` (App.jsx lines 317-370).
Rows are the JS row objects produced by the tabular readers; the fixed
source SRS `'EPSG:22391'` is baked into the projection call.  The function
always hands its result to `addLayer`, so the returned collection is
exactly what reaches the layer store.
-/

/-- A raw tabular row: column name to cell value, in column order. -/
abbrev Row := List (String × PropVal)

/-- JS `Object.keys(row).find(key => key.toUpperCase() === target)` together
with the subsequent `row[key]` read. -/
def findEntryCI (row : Row) (target : String) : Option (String × PropVal) :=
  row.find? (fun e => upperStr e.1 = target)

/-- The row filter (lines 319-324): case-insensitive X and Y columns must
exist and neither value may be NaN under JS `isNaN` coercion. -/
def includeRow (row : Row) : Bool :=
  match findEntryCI row "X", findEntryCI row "Y" with
  | some ex, some ey => !(ex.2.jsIsNaN) && !(ey.2.jsIsNaN)
  | _, _ => false

/-- The name-alias column list of lines 338-342. -/
def nameAliasCols : List String := ["SITES", "A", "NAME"]

/-- The row-to-feature map body (lines 325-360): parse X/Y with
`parseFloat`, project via the fixed `'EPSG:22391'` source SRS (a thrown
projection error drops the row), copy all row columns as properties,
synthesize a truthy `name` from the alias columns or `'Unnamed'`, and
retain numeric `x`/`y` properties. -/
def buildRowFeature (proj : ProjFun) (row : Row) : Option Feature :=
  match findEntryCI row "X", findEntryCI row "Y" with
  | some ex, some ey =>
    let x := ex.2.jsParseFloat
    let y := ey.2.jsParseFloat
    match proj "EPSG:22391" x y with
    | .error _ => none
    | .ok (lon, lat) =>
      let props0 : Props := row
      let props1 :=
        if !(match getProp props0 "name" with
             | some v => v.jsTruthy
             | none => false) then
          match row.find? (fun e => nameAliasCols.contains (upperStr e.1)) with
          | some e => setProp props0 "name" e.2
          | none => setProp props0 "name" (.str "Unnamed")
        else props0
      let props2 := setProp (setProp props1 "x" (.num x)) "y" (.num y)
      some ⟨some ⟨some "Point", some (.arr [.num lon, .num lat])⟩, props2⟩
  | _, _ => none

/-- Embeds `processPointData` (lines 317-370): filter, map, drop thrown rows,
wrap as a feature collection, and hand the result to the layer store
unconditionally. -/
def processPointData (proj : ProjFun) (rows : List Row) : FC :=
  ⟨(rows.filter includeRow).filterMap (buildRowFeature proj), none⟩

/-!
The Shapefile Assembler's post-parse stage (`processShapefile`, App.jsx
lines 919-976).  The binary parsing by the external `shpjs` library is the
model's input: either a FeatureCollection-typed object or a bare feature
array.  The stage re-shapes the parse result, resolves a source SRS from
the PRJ text or a coordinate-magnitude heuristic, transforms if needed, and
hands the result to `addLayer` unconditionally.
-/

/-- The shapes of the `shpjs` parse result the re-shaping step at lines
919-933 distinguishes: an object already carrying a (FeatureCollection)
`type`, or a bare array of features. -/
inductive ShpParsed where
  | fcoll (fc : FC)
  | featArray (l : List Feature)

/-- The UTM-coordinate sniff of lines 936-963: first feature's first
coordinate (descending one level into a leading nested array) of magnitude
above 100000 with a plausible northing selects WGS84 UTM 32N for eastings
in [300000, 900000] and the Tunisian system otherwise. -/
def detectCRSFromCoords (feats : List Feature) : Option String :=
  match feats.head? with
  | none => none
  | some f =>
    match f.geometry with
    | none => none
    | some g =>
      match g.coordinates with
      | some (.arr l) =>
        let elem0 := l.head?
        let firstCoord : Option CoordVal :=
          match elem0 with
          | some (.arr l2) => l2.head?
          | e => e
        let secondCoord : Option CoordVal :=
          match elem0 with
          | some (.arr l2) => l2.get? 1
          | _ => l.get? 1
        match firstCoord with
        | some (.num v) =>
          if (JsNum.jsAbs v).gtR 100000 then
            match secondCoord with
            | some (.num w) =>
              if w.gtR 0 && w.ltR 10000000 then
                let x := JsNum.jsAbs v
                if x.geR 300000 && x.leR 900000 then some "EPSG:32632"
                else some "EPSG:22391"
              else none
            | _ => none
          else none
        | _ => none
      | _ => none

/-- Embeds `processShapefile`, post-parse stage (lines 919-976): wrap a bare
feature array, resolve the SRS from the PRJ text via `extractEPSGFromPRJ`
or else from coordinate magnitude, transform when a non-WGS84 SRS was
resolved, and return the collection handed to `addLayer`. -/
def processShapefile (proj : ProjFun) (parsed : ShpParsed) (prjText : Option String) : FC :=
  let sourceCRS0 :=
    match prjText with
    | some p => extractEPSGFromPRJ p
    | none => none
  let geojson : FC :=
    match parsed with
    | .fcoll fc => fc
    | .featArray l => ⟨l, none⟩
  let sourceCRS :=
    match sourceCRS0 with
    | some s => some s
    | none => detectCRSFromCoords geojson.features
  match sourceCRS with
  | some s =>
    if s ≠ "EPSG:4326" then transformGeoJSONCoordinates proj geojson (some s)
    else geojson
  | none => geojson

/-!
The Tabular Reader: the CSV branch of `handleFileUpload` (App.jsx lines
421-435) delegates to the external `papaparse` library with a literal
configuration object.  The configuration is embedded from the source; the
library's row production for exactly these options (semicolon delimiter,
header row, empty-line skipping, dynamic typing) is modelled here so the
configuration's observable behaviour can be stated.
-/

/-- The `Papa.parse` options the source sets (lines 422-426). -/
structure PapaConfig where
  header : Bool
  delimiter : String
  skipEmptyLines : Bool
  dynamicTyping : Bool
deriving DecidableEq

/-- The literal configuration object passed at lines 422-426. -/
def csvParseConfig : PapaConfig :=
  { header := true, delimiter := ";", skipEmptyLines := true, dynamicTyping := true }

/-- JS `String.prototype.trim` on a character list (drop whitespace from
both ends). -/
def trimChars (l : List Char) : List Char :=
  ((l.dropWhile Char.isWhitespace).reverse.dropWhile Char.isWhitespace).reverse

/-- Modelled papaparse dynamic-typing numeric test: the whole cell (ignoring
surrounding whitespace, which must leave a nonempty remainder) reads as a
finite decimal number. -/
def papaNumeric (s : String) : Bool :=
  !(trimChars s.data).isEmpty && (strToNumberChars s.data).isFiniteNum

/-- Modelled papaparse cell production: with `dynamicTyping` enabled,
numeric-looking cells become numbers and `true`/`false` become booleans;
otherwise the cell's original text is kept. -/
def papaCell (cfg : PapaConfig) (s : String) : PropVal :=
  if cfg.dynamicTyping then
    if s = "true" then .boolv true
    else if s = "false" then .boolv false
    else if papaNumeric s then .num (strToNumberChars s.data)
    else .str s
  else .str s

/-- Split a character list at every occurrence of a separator character. -/
def splitListOnChar (sep : Char) : List Char → List (List Char)
  | [] => [[]]
  | c :: cs =>
    let r := splitListOnChar sep cs
    if c = sep then [] :: r
    else
      match r with
      | h :: t => (c :: h) :: t
      | [] => [[c]]

/-- Modelled papaparse row production for a header-mode parse with a
single-character delimiter (the source's configuration uses `';'`): split
lines, skip empty lines when configured, use the first line's cells as
column names, and pair each subsequent line's cells with them. -/
def papaParse (cfg : PapaConfig) (text : String) : List Row :=
  match cfg.delimiter.data with
  | [d] =>
    let ls := splitListOnChar '\n' text.data
    let ls := if cfg.skipEmptyLines then ls.filter (fun l => l ≠ []) else ls
    match ls with
    | [] => []
    | headerLine :: dataLines =>
      let cols := splitListOnChar d headerLine
      dataLines.map (fun line =>
        (cols.zip (splitListOnChar d line)).map
          (fun p => (String.mk p.1, papaCell cfg (String.mk p.2))))
  | _ => []

/-!
The Markup Geometry Extractor's color handling: `convertKMLColorToHex`
(App.jsx lines 992-1026) and the fill-opacity extraction inside the KML
branch of `handleFileUpload` (lines 606-619).
-/

/-- Hexadecimal digit test (`[0-9a-fA-F]`). -/
def isHexDigitChar (c : Char) : Bool :=
  (48 ≤ c.toNat && c.toNat ≤ 57) ||
  (97 ≤ c.toNat && c.toNat ≤ 102) ||
  (65 ≤ c.toNat && c.toNat ≤ 70)

/-- Value of a hexadecimal digit character (0 on non-hex input, unused). -/
def hexVal (c : Char) : Nat :=
  let n := c.toNat
  if 48 ≤ n && n ≤ 57 then n - 48
  else if 97 ≤ n && n ≤ 102 then n - 87
  else if 65 ≤ n && n ≤ 70 then n - 55
  else 0

/-- Greedy take-while split. -/
def spanWhile (p : Char → Bool) : List Char → (List Char × List Char)
  | [] => ([], [])
  | c :: cs =>
    if p c then
      let (run, rest) := spanWhile p cs
      (c :: run, rest)
    else ([], c :: cs)

/-- JS `parseInt(s, 16)` on a run of hex digits. -/
def parseIntHex (l : List Char) : Nat :=
  l.foldl (fun acc c => 16 * acc + hexVal c) 0

/-- JS `n.toString(16).padStart(2, '0')`. -/
def toHex2 (n : Nat) : List Char :=
  let ds := Nat.toDigits 16 n
  if ds.length < 2 then '0' :: ds else ds

/-- Anchored match of `/rgba?\((\d+),\s*(\d+),\s*(\d+)(?:,\s*([\d.]+))?\)/`
returning the three mandatory digit captures.  The optional alpha group,
when its comma is present, must complete through the closing parenthesis;
backtracking past a present comma cannot succeed because `)` cannot equal
`,`. -/
def rgbMatchAt (rest : List Char) : Option (List Char × List Char × List Char) :=
  if "rgb".data.isPrefixOf rest then
    let r1 := rest.drop 3
    let r1 := match r1 with
      | 'a' :: t => t
      | _ => r1
    match r1 with
    | '(' :: r2 =>
      let (d1, r3) := spanDigits r2
      if d1.isEmpty then none
      else
        match r3 with
        | ',' :: r4 =>
          let (d2, r5) := spanDigits (r4.dropWhile Char.isWhitespace)
          if d2.isEmpty then none
          else
            match r5 with
            | ',' :: r6 =>
              let (d3, r7) := spanDigits (r6.dropWhile Char.isWhitespace)
              if d3.isEmpty then none
              else
                match r7 with
                | ')' :: _ => some (d1, d2, d3)
                | ',' :: r8 =>
                  let (a, r9) := spanWhile (fun c => isDigitChar c || c = '.')
                    (r8.dropWhile Char.isWhitespace)
                  if a.isEmpty then none
                  else
                    match r9 with
                    | ')' :: _ => some (d1, d2, d3)
                    | _ => none
                | _ => none
            | _ => none
        | _ => none
    | _ => none
  else none

/-- Scanner for the RGB/RGBA pattern (`color.match(...)`). -/
def findRGBMatch : List Char → Option (List Char × List Char × List Char)
  | [] => none
  | c :: cs =>
    match rgbMatchAt (c :: cs) with
    | some r => some r
    | none => findRGBMatch cs

/-- Embeds `convertKMLColorToHex` (lines 992-1026): falsy input gives null;
`#`-prefixed input is truncated to 7 characters; an 8-hex-digit
`AABBGGRR` value becomes `#RRGGBB` with the byte order reversed and the
alpha dropped; a bare 6-hex-digit value gains a `#`; an `rgb()`/`rgba()`
value is re-encoded per channel; anything else gives null. -/
def convertKMLColorToHex (kmlColor : String) : Option String :=
  if kmlColor.data.isEmpty then none
  else
    let color := trimChars kmlColor.data
    if color.head? = some '#' then
      some (if color.length = 7 then String.mk color else String.mk (color.take 7))
    else
      if color.length = 8 && color.all isHexDigitChar then
        some (String.mk ('#' :: (color.drop 6 ++ (color.drop 4).take 2 ++ (color.drop 2).take 2)))
      else if color.length = 6 && color.all isHexDigitChar then
        some (String.mk ('#' :: color))
      else
        match findRGBMatch color with
        | some (d1, d2, d3) =>
          some (String.mk ('#' :: (toHex2 (digitsToNat d1) ++ toHex2 (digitsToNat d2) ++ toHex2 (digitsToNat d3))))
        | none => none

/-- How the KML branch records a fill opacity: the explicit element's
trimmed text stored as-is, or the color's alpha byte over 255 (the source
stores `alpha.toString()`; the numeric value is modelled). -/
inductive FillOpacitySource where
  | fromEl (s : String)
  | fromAlpha (q : Rat)
deriving DecidableEq

/-- The fill-opacity extraction of lines 606-619: a present, nonempty
`fillOpacity` element wins verbatim; otherwise a trimmed 8-hex-digit color
value contributes `parseInt(leading two digits, 16) / 255`. -/
def kmlFillOpacity (fillOpacityEl : Option String) (colorEl : Option String) : Option FillOpacitySource :=
  match fillOpacityEl with
  | some ov =>
    let t := trimChars ov.data
    if t.isEmpty then none else some (.fromEl (String.mk t))
  | none =>
    match colorEl with
    | some cv =>
      let c := trimChars cv.data
      if c.length = 8 && c.all isHexDigitChar then
        some (.fromAlpha ((parseIntHex (c.take 2) : Rat) / 255))
      else none
    | none => none

/-!
Concrete projection behaviours and inputs used by the verification
statements below.  `projOk` is an everywhere-defined projection (proj4
does not throw on finite, NaN or infinite numeric input; it propagates
non-finite values through its arithmetic), `projErr` always throws,
`projNaN` returns a non-finite result, and `projMark` returns a marker
value that makes any performed transformation visible.
-/

/-- A projection that never throws and returns its input. -/
def projOk : ProjFun := fun _ x y => .ok (x, y)

/-- A projection that always throws. -/
def projErr : ProjFun := fun _ _ _ => .error ()

/-- A projection that returns a non-finite (NaN) result. -/
def projNaN : ProjFun := fun _ _ _ => .ok (.nan, .nan)

/-- A projection returning the recognizable marker pair (999, 999). -/
def projMark : ProjFun := fun _ _ _ => .ok (.fin 999, .fin 999)

/-- The nine `type` discriminants `processGeoJSON` recognizes. -/
def recognizedGeoTypes : List String :=
  "FeatureCollection" :: "Feature" :: "GeometryCollection" :: bareGeomTypes

/-- The Point-Table row-inclusion rule in the specification's words ("both
values parse as finite numbers" under `parseFloat`), written for comparison
against the source's `includeRow`/`buildRowFeature` behaviour. -/
def claimRowParsesFinite (row : Row) : Bool :=
  match findEntryCI row "X", findEntryCI row "Y" with
  | some ex, some ey => (ex.2.jsParseFloat).isFiniteNum && (ey.2.jsParseFloat).isFiniteNum
  | _, _ => false

/-- The rule actually deciding whether a row emits a feature: the isNaN
coercion filter plus a non-throwing projection call. -/
def rowEmits (proj : ProjFun) (row : Row) : Bool :=
  match findEntryCI row "X", findEntryCI row "Y" with
  | some ex, some ey =>
    !(ex.2.jsIsNaN) && !(ey.2.jsIsNaN) &&
      (match proj "EPSG:22391" ex.2.jsParseFloat ey.2.jsParseFloat with
       | .ok _ => true
       | .error _ => false)
  | _, _ => false

/-- A FeatureCollection input whose first Point feature carries `lon`/`lat`
side-properties while its second does not, with a UTM-32N CRS block. -/
def c5Input : GeoInput :=
  .obj ⟨some "FeatureCollection",
        some [.obj (some "Feature")
                (some ⟨some "Point", some (.arr [.num (.fin 500000), .num (.fin 4000000)])⟩)
                (some [("lon", .num (.fin 10)), ("lat", .num (.fin 36))]),
              .obj (some "Feature")
                (some ⟨some "Point", some (.arr [.num (.fin 600000), .num (.fin 4100000)])⟩)
                (some [])],
        none, none, none, none,
        some ⟨some ⟨some "EPSG:32632"⟩⟩⟩

/-- The normalized first feature of `c5Input` after the lon/lat override. -/
def c5OutA : Feature :=
  ⟨some ⟨some "Point", some (.arr [.num (.fin 10), .num (.fin 36)])⟩,
   [("lon", .num (.fin 10)), ("lat", .num (.fin 36))]⟩

/-- The normalized second feature of `c5Input`, coordinates untouched. -/
def c5OutB : Feature :=
  ⟨some ⟨some "Point", some (.arr [.num (.fin 600000), .num (.fin 4100000)])⟩, []⟩

/-- A one-row table whose lowercase-x column is numeric. -/
def c3WitnessRows : List Row := [[("x", .num (.fin 1)), ("Y", .num (.fin 2))]]

/-- The single feature `processPointData` produces from `c3WitnessRows`. -/
def c3WitnessFeature : Feature :=
  (processPointData projOk c3WitnessRows).features.headD ⟨none, []⟩

/-- A bare-geometry input (a Point) used to exercise the success path. -/
def c2WitnessInput : GeoInput :=
  .obj ⟨some "Point", none, none, none,
        some (.arr [.num (.fin 10), .num (.fin 36)]), none, none⟩

/-- A single-feature collection used to instantiate length preservation. -/
def c6WitnessFC : FC :=
  ⟨[⟨some ⟨some "Point", some (.arr [.num (.fin 1), .num (.fin 2)])⟩, []⟩], none⟩

/-- A FeatureCollection input all of whose entries are features carrying a
`GeometryCollection` geometry (a `geometries` field but no `coordinates`). -/
def c10Input : GeoObj :=
  ⟨some "FeatureCollection",
   some [.obj (some "Feature") (some ⟨some "GeometryCollection", none⟩) (some [])],
   none, none, none, none, none⟩

/-- An input with an unrecognized discriminant. -/
def c1WitnessInput : GeoInput := .obj ⟨some "Foo", none, none, none, none, none, none⟩

/-- The collection `processGeoJSON` produces from `c2WitnessInput`. -/
def c2WitnessOut : FC :=
  ⟨[⟨some ⟨some "Point", some (.arr [.num (.fin 10), .num (.fin 36)])⟩, []⟩], none⟩

/-- The first normalized (pre-override) feature of `c5Input`. -/
def c5InA : Feature :=
  ⟨some ⟨some "Point", some (.arr [.num (.fin 500000), .num (.fin 4000000)])⟩,
   [("lon", .num (.fin 10)), ("lat", .num (.fin 36))]⟩

/-- The second normalized (pre-override) feature of `c5Input`. -/
def c5InB : Feature :=
  ⟨some ⟨some "Point", some (.arr [.num (.fin 600000), .num (.fin 4100000)])⟩, []⟩

/-- The dispatch result for `c5Input` before the CRS phase. -/
def c5Norm : FC := ⟨[c5InA, c5InB], some ⟨some ⟨some "EPSG:32632"⟩⟩⟩

/-- The single feature entry of `c10Input`. -/
def c10Entry : FeatureIn :=
  .obj (some "Feature") (some ⟨some "GeometryCollection", none⟩) (some [])

/-- Claim C2, counterexample: a point-table upload whose single row has
non-numeric X/Y, and a shapefile parse with zero features, both complete
and hand a zero-feature collection to the layer store instead of raising a
terminal ingestion error. -/
theorem c2_counterexample :
    processPointData projOk [[("X", .str "a"), ("Y", .str "b")]] = ⟨[], none⟩ ∧
    processShapefile projOk (.fcoll ⟨[], none⟩) none = ⟨[], none⟩ := by
  decide

/-- Claim C3, counterexample: the row X=`"Infinity"`, Y=`"5"` fails the
claim's finite-parse inclusion rule, yet the Point-Table Normalizer emits a
feature for it (JS `isNaN('Infinity')` is false, and the projection call
does not throw on non-finite numbers). -/
theorem c3_counterexample :
    claimRowParsesFinite [("X", .str "Infinity"), ("Y", .str "5")] = false ∧
    (processPointData projOk [[("X", .str "Infinity"), ("Y", .str "5")]]).features.length = 1 := by
  decide

/-- Claim C4, counterexample: with the source's parse configuration the
cell text `"007"` is coerced to the number 7 — the produced value is not
the cell's original text. -/
theorem c4_counterexample :
    papaParse csvParseConfig "X;Y\n007;abc" =
      [[("X", .num (.fin 7)), ("Y", .str "abc")]] ∧
    papaCell csvParseConfig "007" ≠ .str "007" := by
  decide

/-- Claim C5, counterexample: in a non-WGS84 collection where the first
Point carries `lon`/`lat` side-properties, the second feature — which
carries none — is left with its original projected coordinates (its
transformed image differs), refuting "every feature not carrying such
properties has its coordinates transformed". -/
theorem c5_counterexample :
    processGeoJSON projMark c5Input = .ok ⟨[c5OutA, c5OutB], none⟩ ∧
    transformFeature projMark "EPSG:32632" c5OutB ≠ c5OutB := by
  decide

/-- Claim C6, counterexample: when the projection produces a non-finite
(NaN) result without throwing, the transformer stores the NaN pair — the
coordinate's original value is not kept. -/
theorem c6_counterexample :
    transformCoords projNaN "EPSG:22391" (.arr [.num (.fin 10), .num (.fin 20)]) =
      .arr [.num .nan, .num .nan] ∧
    (CoordVal.arr [.num .nan, .num .nan]) ≠ .arr [.num (.fin 10), .num (.fin 20)] := by
  decide

/-- Claim C6, amended: only a thrown projection call preserves the
original coordinate pair (trailing dimensions included), and the
transformer never discards a feature — the feature count is preserved for
every projection behaviour. -/
theorem c6_amended (proj : ProjFun) (src : String) (x y : JsNum) (rest : List CoordVal)
    (h : proj src x y = .error ()) :
    transformCoords proj src (.arr (.num x :: .num y :: rest)) =
      .arr (.num x :: .num y :: rest) ∧
    ∀ (g : FC) (srcOpt : Option String),
      (transformGeoJSONCoordinates proj g srcOpt).features.length = g.features.length := by
  constructor
  · simp [transformCoords, h]
  · intro g srcOpt
    cases srcOpt with
    | none => rfl
    | some s =>
      simp only [transformGeoJSONCoordinates]
      split
      · rfl
      · simp

/-- Claim C6, amended, witness at a throwing projection and a concrete
collection. -/
theorem c6_amended_witness :
    transformCoords projErr "EPSG:22391" (.arr [.num (.fin 1), .num (.fin 2)]) =
      .arr [.num (.fin 1), .num (.fin 2)] ∧
    (transformGeoJSONCoordinates projErr c6WitnessFC (some "EPSG:22391")).features.length =
      c6WitnessFC.features.length :=
  ⟨(c6_amended projErr "EPSG:22391" (.fin 1) (.fin 2) [] rfl).1,
   (c6_amended projErr "EPSG:22391" (.fin 1) (.fin 2) [] rfl).2 c6WitnessFC (some "EPSG:22391")⟩

/-- Claim C7: when no source SRS is given or it already equals the WGS84
target, the Coordinate Transformer returns its input identically, for every
possible projection behaviour (no projection math can influence the
result). -/
theorem c7_identity_fast_path (proj : ProjFun) (g : FC) (src : Option String)
    (h : src = none ∨ src = some "EPSG:4326") :
    transformGeoJSONCoordinates proj g src = g := by
  rcases h with h | h <;> subst h <;> simp [transformGeoJSONCoordinates]

/-- Claim C7, witness at the WGS84 source SRS and a concrete collection. -/
theorem c7_identity_fast_path_witness :
    transformGeoJSONCoordinates projMark c6WitnessFC (some "EPSG:4326") = c6WitnessFC :=
  c7_identity_fast_path projMark c6WitnessFC (some "EPSG:4326") (Or.inr rfl)

/-- Claim C8: the CRS Resolver's algorithmic UTM fallback evaluated on an
explicitly northern WGS84 zone-31 definition returns the southern code
EPSG:32731, not EPSG:32631 — the hemisphere test `!includes('S')` is always
false in this branch because reaching it requires the text to contain
`WGS`, which contains `S`. -/
theorem c8_utm_fallback_always_south :
    extractEPSGFromPRJ "UTM Zone 31 North WGS 1984" = some "EPSG:32731" ∧
    extractEPSGFromPRJ "UTM Zone 31 North WGS 1984" ≠ some "EPSG:32631" := by
  decide

/-- Every successful dispatch produces a nonempty feature list: the
FeatureCollection and GeometryCollection branches guard emptiness and the
other success branches build singletons. -/
theorem aux_normalizeGeoDoc_ok_ne_nil {g : GeoInput} {n : FC}
    (h : normalizeGeoDoc g = .ok n) : n.features ≠ [] := by
  cases g with
  | nonObject => exact absurd h (by simp [normalizeGeoDoc])
  | obj o =>
    simp only [normalizeGeoDoc] at h
    split at h
    · split at h
      · simp at h
      · split at h
        · simp at h
        · rename_i hne
          injection h with h2
          subst h2
          simpa [List.isEmpty_iff] using hne
    · split at h
      · split at h
        · simp at h
        · split at h
          · simp at h
          · injection h with h2
            subst h2
            simp
      · split at h
        · injection h with h2
          subst h2
          simp
        · split at h
          · split at h
            · simp at h
            · split at h
              · simp at h
              · rename_i hne
                injection h with h2
                subst h2
                simpa [List.isEmpty_iff] using hne
          · simp at h

/-- The known-CRS phase preserves the feature count. -/
theorem aux_crsTransformPhase_length (proj : ProjFun) (src : String) (n : FC) :
    (crsTransformPhase proj src n).features.length = n.features.length := by
  simp only [crsTransformPhase]
  split <;> simp

/-- The no-CRS phase preserves the feature count. -/
theorem aux_noCRSPhase_length (n : FC) :
    (noCRSPhase n).features.length = n.features.length := by
  simp only [noCRSPhase]
  split <;> simp

/-- The whole post-dispatch phase preserves the feature count. -/
theorem aux_geoPostPhase_length (proj : ProjFun) (n : FC) :
    (geoPostPhase proj n).features.length = n.features.length := by
  cases hs : extractSourceCRSFromFC n.crs with
  | none =>
    unfold geoPostPhase
    rw [hs]
    exact aux_noCRSPhase_length n
  | some src =>
    unfold geoPostPhase
    rw [hs]
    show (if src ≠ "EPSG:4326" then crsTransformPhase proj src n
          else n).features.length = n.features.length
    split
    · exact aux_crsTransformPhase_length proj src n
    · rfl

/-- Success characterization of `processGeoJSON`. -/
theorem aux_processGeoJSON_ok_iff {proj : ProjFun} {g : GeoInput} {out : FC} :
    processGeoJSON proj g = .ok out ↔
      ∃ n, normalizeGeoDoc g = .ok n ∧ out = geoPostPhase proj n := by
  unfold processGeoJSON
  cases hn : normalizeGeoDoc g with
  | error e => simp
  | ok n => simp [eq_comm]

/-- Every collection `processGeoJSON` hands to the layer store is
nonempty. -/
theorem aux_processGeoJSON_ok_ne_nil {proj : ProjFun} {g : GeoInput} {out : FC}
    (h : processGeoJSON proj g = .ok out) : out.features ≠ [] := by
  obtain ⟨n, hn, hout⟩ := aux_processGeoJSON_ok_iff.mp h
  subst hout
  intro hnil
  have hlen := aux_geoPostPhase_length proj n
  rw [hnil] at hlen
  exact aux_normalizeGeoDoc_ok_ne_nil hn
    (List.eq_nil_of_length_eq_zero hlen.symm)

/-- Claim C1: for every parsed structured-geometry input and every
projection behaviour, `processGeoJSON` yields either a
FeatureCollection-shaped result with at least one (wrapped) feature or a
typed failure; a discriminant outside the nine recognized values fails
with the unsupported-type error naming the received value (a missing
discriminant is reported as `'unknown'`). -/
theorem c1_normalizer_total_shape (proj : ProjFun) (g : GeoInput) :
    ((∃ out, processGeoJSON proj g = .ok out ∧ out.features ≠ []) ∨
     (∃ e, processGeoJSON proj g = .error e)) ∧
    (∀ o t, g = .obj o → o.type = some t → t ∉ recognizedGeoTypes → t ≠ "" →
      processGeoJSON proj g = .error (.unsupportedType t)) ∧
    (∀ o, g = .obj o → o.type = none →
      processGeoJSON proj g = .error (.unsupportedType "unknown")) := by
  refine ⟨?_, ?_, ?_⟩
  · cases hr : processGeoJSON proj g with
    | ok out => exact Or.inl ⟨out, rfl, aux_processGeoJSON_ok_ne_nil hr⟩
    | error e => exact Or.inr ⟨e, rfl⟩
  · intro o t hgo hot hmem hne
    subst hgo
    simp only [recognizedGeoTypes, bareGeomTypes, List.mem_cons, List.mem_singleton,
      not_or, List.not_mem_nil] at hmem
    obtain ⟨m1, m2, m3, m4, m5, m6, m7, m8, m9, _⟩ := hmem
    simp [processGeoJSON, normalizeGeoDoc, hot, bareGeomTypes, typeNameOrUnknown,
      m1, m2, m3, m4, m5, m6, m7, m8, m9, hne]
  · intro o hgo hot
    subst hgo
    simp [processGeoJSON, normalizeGeoDoc, hot, typeNameOrUnknown]

/-- Claim C1, witness: an input with discriminant `"Foo"` fails with the
unsupported-type error naming `"Foo"`. -/
theorem c1_normalizer_total_shape_witness :
    processGeoJSON projOk c1WitnessInput = .error (.unsupportedType "Foo") :=
  (c1_normalizer_total_shape projOk c1WitnessInput).2.1 _ "Foo" rfl rfl
    (by decide) (by decide)

/-- Claim C2, amended: only the structured-geometry path guarantees a
nonempty collection — every success of `processGeoJSON` carries at least
one feature (the point-table and shapefile paths, per the counterexample,
hand even empty collections to the layer store). -/
theorem c2_amended_nonempty (proj : ProjFun) (g : GeoInput) (out : FC)
    (h : processGeoJSON proj g = .ok out) : out.features ≠ [] :=
  aux_processGeoJSON_ok_ne_nil h

/-- Claim C2, amended, witness on a bare-Point input. -/
theorem c2_amended_nonempty_witness :
    processGeoJSON projOk c2WitnessInput = .ok c2WitnessOut ∧
    c2WitnessOut.features ≠ [] :=
  ⟨by decide, c2_amended_nonempty projOk c2WitnessInput c2WitnessOut (by decide)⟩

/-- Length of a `filterMap` as a count of productive elements. -/
theorem aux_length_filterMap {α β : Type} (f : α → Option β) (l : List α) :
    (l.filterMap f).length = l.countP (fun a => (f a).isSome) := by
  induction l with
  | nil => rfl
  | cons a t ih =>
    cases hf : f a with
    | none => simp [List.filterMap_cons, hf, List.countP_cons, ih]
    | some b => simp [List.filterMap_cons, hf, List.countP_cons, ih]

/-- The inclusion filter combined with a productive build step coincides
with the `rowEmits` characterization. -/
theorem aux_emits_pointwise (proj : ProjFun) (r : Row) :
    (includeRow r && (buildRowFeature proj r).isSome) = rowEmits proj r := by
  unfold includeRow buildRowFeature rowEmits
  cases hx : findEntryCI r "X" with
  | none => simp
  | some ex =>
    cases hy : findEntryCI r "Y" with
    | none => simp
    | some ey =>
      simp only
      cases hp : proj "EPSG:22391" ex.2.jsParseFloat ey.2.jsParseFloat with
      | ok pr =>
        cases pr
        simp [hp, Bool.and_assoc]
      | error e => simp [hp]

/-- Every feature the build step emits is a Point. -/
theorem aux_buildRowFeature_point {proj : ProjFun} {r : Row} {f : Feature}
    (h : buildRowFeature proj r = some f) :
    ∃ geo, f.geometry = some geo ∧ geo.type = some "Point" := by
  unfold buildRowFeature at h
  cases hx : findEntryCI r "X" with
  | none => rw [hx] at h; simp at h
  | some ex =>
    cases hy : findEntryCI r "Y" with
    | none => rw [hx, hy] at h; simp at h
    | some ey =>
      rw [hx, hy] at h
      simp only at h
      cases hp : proj "EPSG:22391" ex.2.jsParseFloat ey.2.jsParseFloat with
      | error e => rw [hp] at h; simp at h
      | ok pr =>
        cases pr
        rw [hp] at h
        simp only at h
        injection h with h2
        subst h2
        exact ⟨_, rfl, rfl⟩

/-- Claim C3, amended: a row yields exactly one Point feature when it has
case-insensitive X and Y columns whose values pass the JS `isNaN` coercion
test (which admits non-finite values such as `"Infinity"` and values
coercing to 0 such as `""` or null) and the fixed-SRS projection call does
not throw; all other rows are dropped with nothing emitted, and every
emitted feature is a Point. -/
theorem c3_amended_row_rule (proj : ProjFun) (rows : List Row) :
    (processPointData proj rows).features.length =
      (rows.filter (rowEmits proj)).length ∧
    ∀ f ∈ (processPointData proj rows).features,
      ∃ geo, f.geometry = some geo ∧ geo.type = some "Point" := by
  constructor
  · show ((rows.filter includeRow).filterMap (buildRowFeature proj)).length = _
    rw [aux_length_filterMap, List.countP_filter, ← List.countP_eq_length_filter]
    exact List.countP_congr (fun r _ => by
      rw [← aux_emits_pointwise proj r]
      simp [Bool.and_comm])
  · intro f hf
    have hf2 : f ∈ (rows.filter includeRow).filterMap (buildRowFeature proj) := hf
    obtain ⟨r, _, hr⟩ := List.mem_filterMap.mp hf2
    exact aux_buildRowFeature_point hr

/-- Claim C3, amended, witness: the lowercase-x numeric row emits one
Point feature. -/
theorem c3_amended_row_rule_witness :
    (processPointData projOk c3WitnessRows).features.length =
      (c3WitnessRows.filter (rowEmits projOk)).length ∧
    ∃ geo, c3WitnessFeature.geometry = some geo ∧ geo.type = some "Point" :=
  ⟨(c3_amended_row_rule projOk c3WitnessRows).1,
   (c3_amended_row_rule projOk c3WitnessRows).2 c3WitnessFeature (by decide)⟩

/-- The lon/lat override leaves features without the Point-plus-side-
properties signature untouched. -/
theorem aux_lonLatOverride_of_not {f : Feature}
    (h : featureHasPointLonLat f = false) : lonLatOverride f = f := by
  unfold featureHasPointLonLat at h
  cases hg : f.geometry with
  | none => unfold lonLatOverride; rw [hg]
  | some g =>
    rw [hg] at h
    by_cases ht : g.type = some "Point"
    · cases hl : getProp f.properties "lon" with
      | none => simp [lonLatOverride, hg, ht, hl]
      | some lv =>
        cases hm : getProp f.properties "lat" with
        | none => simp [lonLatOverride, hg, ht, hl, hm]
        | some mv => simp [ht, hl, hm] at h
    · simp [lonLatOverride, hg, ht]

/-- Claim C5, amended: when the resolved source SRS differs from WGS84 the
normalizer runs the lon/lat override pass and clears the CRS block, but the
per-feature transformation is all-or-nothing: if any Point feature carries
`lon`/`lat` side-properties, no feature is projected (features without the
properties keep their original coordinates); only when no feature carries
them is every feature transformed. -/
theorem c5_amended_override_semantics (proj : ProjFun) (src : String) (n : FC)
    (g : GeoInput)
    (hg : normalizeGeoDoc g = .ok n)
    (hs : extractSourceCRSFromFC n.crs = some src)
    (hne : src ≠ "EPSG:4326") :
    processGeoJSON proj g = .ok (crsTransformPhase proj src n) ∧
    (crsTransformPhase proj src n).crs = none ∧
    ((∃ f ∈ n.features, featureHasPointLonLat f = true) →
      (crsTransformPhase proj src n).features = n.features.map lonLatOverride) ∧
    ((∀ f ∈ n.features, featureHasPointLonLat f = false) →
      (crsTransformPhase proj src n).features =
        n.features.map (transformFeature proj src)) := by
  refine ⟨?_, ?_, ?_, ?_⟩
  · unfold processGeoJSON
    rw [hg]
    show Except.ok (geoPostPhase proj n) = Except.ok (crsTransformPhase proj src n)
    unfold geoPostPhase
    rw [hs]
    show Except.ok (if src ≠ "EPSG:4326" then crsTransformPhase proj src n else n) =
      Except.ok (crsTransformPhase proj src n)
    rw [if_pos hne]
  · simp [crsTransformPhase]
  · intro ⟨f, hf, hhas⟩
    have hany : n.features.any featureHasPointLonLat = true :=
      List.any_eq_true.mpr ⟨f, hf, hhas⟩
    simp [crsTransformPhase, hany]
  · intro hall
    have hany : n.features.any featureHasPointLonLat = false := by
      simp only [List.any_eq_false]
      intro x hx
      simp [hall x hx]
    simp only [crsTransformPhase, hany, Bool.false_eq_true, if_false, List.map_map]
    exact List.map_congr_left (fun f hf => by
      simp [Function.comp_apply, aux_lonLatOverride_of_not (hall f hf)])

/-- Claim C5, amended, witness on the two-Point collection: the override
pass is used and no projection occurs. -/
theorem c5_amended_override_semantics_witness :
    processGeoJSON projMark c5Input = .ok (crsTransformPhase projMark "EPSG:32632" c5Norm) ∧
    (crsTransformPhase projMark "EPSG:32632" c5Norm).crs = none ∧
    (crsTransformPhase projMark "EPSG:32632" c5Norm).features =
      c5Norm.features.map lonLatOverride := by
  have H := c5_amended_override_semantics projMark "EPSG:32632" c5Norm c5Input
    (by decide) (by decide) (by decide)
  exact ⟨H.1, H.2.1, H.2.2.1 ⟨c5InA, by decide, by decide⟩⟩

/-- Claim C10: a FeatureCollection member whose geometry lacks a
`coordinates` field — as every GeometryCollection geometry does — is
dropped by the per-entry filter, and a collection whose members are all
such features is rejected with the no-valid-features error. -/
theorem c10_geometrycollection_members_dropped (proj : ProjFun) (o : GeoObj)
    (fs : List FeatureIn)
    (h1 : o.type = some "FeatureCollection") (h2 : o.features = some fs) :
    (∀ t geo p, geo.coordinates = none → keepFeature (.obj t (some geo) p) = none) ∧
    ((∀ fi ∈ fs, ∃ geo p, fi = .obj (some "Feature") (some geo) p ∧ geo.coordinates = none) →
      processGeoJSON proj (.obj o) = .error .noValidFeatures) := by
  constructor
  · intro t geo p hc
    by_cases ht : t = some "Feature"
    · simp [keepFeature, ht, hc]
    · simp [keepFeature, ht]
  · intro hall
    have hkept : fs.filterMap keepFeature = [] := by
      rw [List.filterMap_eq_nil_iff]
      intro fi hfi
      obtain ⟨geo, p, rfl, hc⟩ := hall fi hfi
      simp [keepFeature, hc]
    simp [processGeoJSON, normalizeGeoDoc, h1, h2, hkept]

/-- Claim C10, witness: the singleton collection whose only member carries
a GeometryCollection geometry is rejected. -/
theorem c10_geometrycollection_members_dropped_witness :
    keepFeature c10Entry = none ∧
    processGeoJSON projOk (.obj c10Input) = .error .noValidFeatures := by
  have H := c10_geometrycollection_members_dropped projOk c10Input [c10Entry] rfl rfl
  refine ⟨H.1 (some "Feature") ⟨some "GeometryCollection", none⟩ (some []) rfl, H.2 ?_⟩
  intro fi hfi
  simp only [List.mem_singleton] at hfi
  subst hfi
  exact ⟨⟨some "GeometryCollection", none⟩, some [], rfl, rfl⟩

/-- A hex digit is not whitespace. -/
theorem aux_hex_not_ws {c : Char} (h : isHexDigitChar c = true) :
    c.isWhitespace = false := by
  cases hw : c.isWhitespace with
  | false => rfl
  | true =>
    exfalso
    simp only [Char.isWhitespace, Bool.or_eq_true, decide_eq_true_eq] at hw
    rcases hw with ((hc | hc) | hc) | hc <;> subst hc <;>
      simp [isHexDigitChar] at h

/-- A hex digit is not the hash character. -/
theorem aux_hex_not_hash {c : Char} (h : isHexDigitChar c = true) : c ≠ '#' := by
  intro hc
  subst hc
  simp [isHexDigitChar] at h

/-- A hex digit's value is at most 15. -/
theorem aux_hexVal_le (c : Char) : hexVal c ≤ 15 := by
  unfold hexVal
  dsimp only
  split <;> rename_i h1
  · simp only [Bool.and_eq_true, decide_eq_true_eq] at h1
    omega
  · split <;> rename_i h2
    · simp only [Bool.and_eq_true, decide_eq_true_eq] at h2
      omega
    · split <;> rename_i h3
      · simp only [Bool.and_eq_true, decide_eq_true_eq] at h3
        omega
      · omega

/-- Claim C9: for every 8-hex-digit KML color `AABBGGRR`, the extracted
fill color is `#RRGGBB` (byte order reversed, alpha dropped), and with no
explicit `fillOpacity` element the extracted fill opacity is the leading
alpha byte over 255, a number in [0, 1]. -/
theorem c9_kml_color_and_opacity (a1 a2 b1 b2 g1 g2 r1 r2 : Char)
    (h : ([a1, a2, b1, b2, g1, g2, r1, r2]).all isHexDigitChar = true) :
    convertKMLColorToHex (String.mk [a1, a2, b1, b2, g1, g2, r1, r2]) =
      some (String.mk ['#', r1, r2, g1, g2, b1, b2]) ∧
    ∃ q, kmlFillOpacity none (some (String.mk [a1, a2, b1, b2, g1, g2, r1, r2])) =
        some (.fromAlpha q) ∧
      q = ((16 * hexVal a1 + hexVal a2 : Nat) : Rat) / 255 ∧
      0 ≤ q ∧ q ≤ 1 := by
  simp only [List.all_cons, List.all_nil, Bool.and_eq_true, Bool.and_true] at h
  obtain ⟨h1, h2, h3, h4, h5, h6, h7, h8⟩ := h
  have w1 := aux_hex_not_ws h1
  have w8 := aux_hex_not_ws h8
  have hts : trimChars [a1, a2, b1, b2, g1, g2, r1, r2] =
      [a1, a2, b1, b2, g1, g2, r1, r2] := by
    simp [trimChars, List.dropWhile_cons, w1, w8]
  have hp : parseIntHex [a1, a2] = 16 * hexVal a1 + hexVal a2 := by
    simp [parseIntHex]
  constructor
  · simp [convertKMLColorToHex, hts, aux_hex_not_hash h1, h1, h2, h3, h4, h5, h6, h7, h8]
  · refine ⟨((16 * hexVal a1 + hexVal a2 : Nat) : Rat) / 255, ?_, rfl, ?_, ?_⟩
    · simp [kmlFillOpacity, hts, h1, h2, h3, h4, h5, h6, h7, h8, hp]
    · positivity
    · rw [div_le_one (by norm_num : (0 : Rat) < 255)]
      have hb : 16 * hexVal a1 + hexVal a2 ≤ 255 := by
        have := aux_hexVal_le a1
        have := aux_hexVal_le a2
        omega
      exact_mod_cast hb

/-- Claim C9, witness at the color `7f0000ff` (alpha `7f`, red `ff`). -/
theorem c9_kml_color_and_opacity_witness :
    convertKMLColorToHex (String.mk ['7', 'f', '0', '0', '0', '0', 'f', 'f']) =
      some (String.mk ['#', 'f', 'f', '0', '0', '0', '0']) ∧
    ∃ q, kmlFillOpacity none
        (some (String.mk ['7', 'f', '0', '0', '0', '0', 'f', 'f'])) =
        some (.fromAlpha q) ∧
      q = ((16 * hexVal '7' + hexVal 'f' : Nat) : Rat) / 255 ∧
      0 ≤ q ∧ q ≤ 1 :=
  c9_kml_color_and_opacity '7' 'f' '0' '0' '0' '0' 'f' 'f' (by decide)

/-- Claim C4, amended: the Tabular Reader does use a semicolon delimiter,
the header row as column names, and empty-line skipping, but it enables
automatic type coercion (`dynamicTyping: true`): cells whose whole text
reads as a finite number are converted to numbers (corrupting leading
zeros), and only non-numeric, non-boolean cell text is kept verbatim. -/
theorem c4_amended_reader_contract :
    csvParseConfig.delimiter = ";" ∧ csvParseConfig.header = true ∧
    csvParseConfig.skipEmptyLines = true ∧ csvParseConfig.dynamicTyping = true ∧
    (∀ s, papaNumeric s = false → s ≠ "true" → s ≠ "false" →
      papaCell csvParseConfig s = .str s) ∧
    (∀ s, papaNumeric s = true →
      papaCell csvParseConfig s = .num (strToNumberChars s.data)) := by
  refine ⟨rfl, rfl, rfl, rfl, ?_, ?_⟩
  · intro s hn ht hf
    simp [papaCell, csvParseConfig, hn, ht, hf]
  · intro s hn
    have ht : s ≠ "true" := by
      rintro rfl
      exact absurd hn (by decide)
    have hf : s ≠ "false" := by
      rintro rfl
      exact absurd hn (by decide)
    simp [papaCell, csvParseConfig, ht, hf, hn]

/-- Claim C4, amended, witness: a non-numeric cell keeps its text. -/
theorem c4_amended_reader_contract_witness :
    papaCell csvParseConfig "abc" = .str "abc" :=
  c4_amended_reader_contract.2.2.2.2.1 "abc" (by decide) (by decide) (by decide)
